import Mathlib

set_option maxRecDepth 16384

/-!
Shallow embedding of `examples/serving/weather_pipeline.py`.

The pipeline has two stages: `get_weather` synthesizes a weather reading
from a city name (plus one injected uniform random draw for the
temperature jitter), and `analyze_weather_with_llm` attempts a remote
LLM call and falls back to a deterministic rule engine on any failure.

Floats are modelled as rationals.  The remote collaborator is modelled
as an injected credential (`Option String`, the value of the
`OPENAI_API_KEY` environment variable) together with a function
`complete : String → Except String String` standing for the chat
completion request on the constructed prompt; `Except.error` is any
remote failure (network error, malformed response, rate limit,
timeout).  Raising an exception is modelled by returning `Except.error`.
-/

/-- A weather reading: the dictionary `{temperature, humidity, wind_speed}`
returned by `get_weather` (all values are floats in the source, modelled
as rationals). -/
structure WeatherData where
  temperature : ℚ
  humidity : ℚ
  wind_speed : ℚ

/-- The failure `get_weather` hits on an empty city: evaluating `city[0]`
raises, and nothing catches it.  The spec names this synthesis-stage
failure `InvalidInputError`. -/
inductive InvalidInputError where
  | emptyCity
deriving DecidableEq

/-- Python `str.lower()`, character-wise (ASCII case folding, as in
`Char.toLower`; the source only ever lowercases city names). -/
def pyLower (s : String) : String := ⟨s.data.map Char.toLower⟩

/-- The local `temp_base` of `get_weather`:
`sum(ord(c) for c in city.lower()) % 30`. -/
def temp_base (city : String) : ℕ := ((pyLower city).data.map Char.toNat).sum % 30

/-- Embedding of the step `get_weather(city)`.  The uniform draw
`random.uniform(-5, 5)` is the injected parameter `r`.  On an empty city
the source raises while evaluating `ord(city[0])`; here that is the
`Except.error` branch. -/
def get_weather (city : String) (r : ℚ) : Except InvalidInputError WeatherData :=
  match city.data with
  | [] => Except.error InvalidInputError.emptyCity
  | c0 :: _ =>
    Except.ok
      { temperature := (temp_base city : ℚ) + r
        humidity := ((40 + c0.toNat % 40 : ℕ) : ℚ)
        wind_speed := ((5 + city.length % 15 : ℕ) : ℚ) }

/-- One decimal digit, modelling the Python format spec `:.1f` on the
rational value (round half up; display-only, no claim depends on the
digits). -/
def fmt1 (q : ℚ) : String :=
  let n : ℤ := Int.fdiv (20 * q.num + (q.den : ℤ)) (2 * (q.den : ℤ))
  let sign := if n < 0 then "-" else ""
  sign ++ toString (n.natAbs / 10) ++ "." ++ toString (n.natAbs % 10)

/-- Display of a rational as Python prints the (integer-valued) humidity
with `{humidity}` (display-only, no claim depends on the digits). -/
def fmtQ (q : ℚ) : String :=
  if q.den = 1 then toString q.num
  else toString q.num ++ "/" ++ toString q.den

/-- Uppercase the first character of a word. -/
def capFirst (s : String) : String :=
  match s.data with
  | [] => s
  | c :: cs => ⟨Char.toUpper c :: cs⟩

/-- Python `str.title()` as used on the (all lowercase) bucket
descriptions. -/
def pyTitle (s : String) : String :=
  " ".intercalate ((s.splitOn " ").map capFirst)

/-- The `weather_prompt` f-string built at the start of
`analyze_weather_with_llm`. -/
def weather_prompt (city : String) (temp humidity wind : ℚ) : String :=
  "You are a weather expert AI assistant. Analyze the following weather data for "
    ++ city ++ " and provide detailed insights and recommendations.\n\nWeather Data:\n- City: "
    ++ city ++ "\n- Temperature: " ++ fmt1 temp ++ "°C\n- Humidity: " ++ fmtQ humidity
    ++ "%\n- Wind Speed: " ++ fmt1 wind
    ++ " km/h\n\nPlease provide:\n1. A brief weather assessment\n2. Comfort level rating (1-10)\n3. Recommended activities\n4. What to wear\n5. Any weather warnings or tips\n\nKeep your response concise but informative."

/-- The classification the rule engine derives: the local variables
`temp_desc`, `comfort`, `activities`, `clothing`, `warning` of the
fallback branch. -/
structure Classification where
  temp_desc : String
  comfort : Int
  activities : String
  clothing : String
  warning : String

/-- The five-way temperature bucketing of the fallback
(`if temp < 0: ... elif temp < 10: ... elif temp < 25: ...
elif temp < 35: ... else: ...`). -/
def tempBucket (temp : ℚ) : Classification :=
  if temp < 0 then
    { temp_desc := "freezing", comfort := 2
      activities := "indoor activities, ice skating"
      clothing := "heavy winter coat, gloves, warm boots"
      warning := "⚠️ Risk of frostbite - limit outdoor exposure" }
  else if temp < 10 then
    { temp_desc := "cold", comfort := 4
      activities := "brisk walks, winter sports"
      clothing := "warm jacket, layers, closed shoes"
      warning := "Bundle up to stay warm" }
  else if temp < 25 then
    { temp_desc := "pleasant", comfort := 8
      activities := "hiking, cycling, outdoor dining"
      clothing := "light jacket or sweater"
      warning := "Perfect weather for outdoor activities!" }
  else if temp < 35 then
    { temp_desc := "hot", comfort := 6
      activities := "swimming, early morning walks"
      clothing := "light clothing, sun hat, sunscreen"
      warning := "Stay hydrated and seek shade" }
  else
    { temp_desc := "extremely hot", comfort := 3
      activities := "indoor activities, swimming"
      clothing := "minimal light clothing, sun protection"
      warning := "⚠️ Heat warning - avoid prolonged sun exposure" }

/-- The humidity adjustment of the fallback
(`if humidity > 80: comfort -= 1; warning += ... elif humidity < 30:
warning += ...`). -/
def humidityAdjust (c : Classification) (humidity : ℚ) : Classification :=
  if humidity > 80 then
    { c with comfort := c.comfort - 1
             warning := c.warning ++ " High humidity will make it feel warmer." }
  else if humidity < 30 then
    { c with warning := c.warning ++ " Low humidity may cause dry skin." }
  else c

/-- The wind adjustment of the fallback (`if wind > 20: warning += ...`). -/
def windAdjust (c : Classification) (wind : ℚ) : Classification :=
  if wind > 20 then
    { c with warning := c.warning ++ " Strong winds - secure loose items." }
  else c

/-- The whole rule engine: bucket, then humidity adjustment, then wind
adjustment, in source order. -/
def ruleClassify (temp humidity wind : ℚ) : Classification :=
  windAdjust (humidityAdjust (tempBucket temp) humidity) wind

/-- The fallback report f-string returned from the `except` branch of
`analyze_weather_with_llm`. -/
def ruleReport (city : String) (temp humidity wind : ℚ) : String :=
  let c := ruleClassify temp humidity wind
  "🤖 Weather Analysis for " ++ city ++ ":\n\nAssessment: " ++ pyTitle c.temp_desc
    ++ " weather with " ++ fmtQ humidity ++ "% humidity\nComfort Level: "
    ++ toString c.comfort ++ "/10\nWind Conditions: " ++ fmt1 wind
    ++ " km/h\n\nRecommended Activities: " ++ c.activities
    ++ "\nWhat to Wear: " ++ c.clothing ++ "\nWeather Tips: " ++ c.warning
    ++ "\n\n---\nRaw Data: " ++ fmt1 temp ++ "°C, " ++ fmtQ humidity ++ "% humidity, "
    ++ fmt1 wind ++ " km/h wind"
    ++ "\nAnalysis: Rule-based AI (LLM unavailable)"

/-- The success report f-string returned from the `try` branch. -/
def llmReport (city : String) (temp humidity wind : ℚ) (llm_analysis : String) : String :=
  "🤖 LLM Weather Analysis for " ++ city ++ ":\n\n" ++ llm_analysis
    ++ "\n\n---\nRaw Data: " ++ fmt1 temp ++ "°C, " ++ fmtQ humidity ++ "% humidity, "
    ++ fmt1 wind ++ " km/h wind"
    ++ "\nPowered by: OpenAI GPT-3.5-turbo"

/-- The remote attempt inside the `try` block: `os.getenv` yields
`api_key`; a missing or empty key raises (`if not api_key: raise ...`),
otherwise the collaborator is invoked on the prompt and may itself fail. -/
def attemptRemote (api_key : Option String)
    (complete : String → Except String String) (user_prompt : String) :
    Except String String :=
  match api_key with
  | none => Except.error "OpenAI API key not found"
  | some k => if k = "" then Except.error "OpenAI API key not found" else complete user_prompt

/-- Embedding of the step `analyze_weather_with_llm(weather_data, city)`:
try the remote call; on success wrap the reply, on any failure return the
rule-based report.  The function is total: it returns a `String` on every
input, so no error ever reaches the caller. -/
def analyze_weather_with_llm (weather_data : WeatherData) (city : String)
    (api_key : Option String) (complete : String → Except String String) : String :=
  match attemptRemote api_key complete
      (weather_prompt city weather_data.temperature weather_data.humidity
        weather_data.wind_speed) with
  | Except.ok llm_analysis =>
      llmReport city weather_data.temperature weather_data.humidity
        weather_data.wind_speed llm_analysis
  | Except.error _ =>
      ruleReport city weather_data.temperature weather_data.humidity
        weather_data.wind_speed

/-- Embedding of `weather_agent_pipeline`: run the two steps in order;
a synthesis failure propagates, an analysis result is returned as-is. -/
def weather_agent_pipeline (city : String) (r : ℚ) (api_key : Option String)
    (complete : String → Except String String) : Except InvalidInputError String :=
  match get_weather city r with
  | Except.error e => Except.error e
  | Except.ok weather_data =>
      Except.ok (analyze_weather_with_llm weather_data city api_key complete)

/-- Modelled from the spec (section 4.1), for the refinement claim C5:
temperature_base is the sum of the character codes of the lowercased
city, mod 30; the final temperature adds one uniform draw `r` from
`[-5, 5]`; humidity is 40 plus (code of `city[0]` mod 40); wind speed is
5 plus (length of city mod 15); an empty city fails with
`InvalidInputError`. -/
def synthesize_spec (city : String) (r : ℚ) : Except InvalidInputError WeatherData :=
  if city = "" then Except.error InvalidInputError.emptyCity
  else
    let temperature_base : ℕ := (List.sum (List.map Char.toNat (pyLower city).data)) % 30
    Except.ok
      { temperature := (temperature_base : ℚ) + r
        humidity := ((40 + city.data.headI.toNat % 40 : ℕ) : ℚ)
        wind_speed := ((5 + city.length % 15 : ℕ) : ℚ) }

/-- Substring containment: `sub` occurs contiguously in `s`. -/
def containsStr (s sub : String) : Prop := sub.data <:+: s.data

instance (s sub : String) : Decidable (containsStr s sub) :=
  inferInstanceAs (Decidable (sub.data <:+: s.data))

theorem containsStr_append_of_right (a s sub : String) (h : containsStr s sub) :
    containsStr (a ++ s) sub := by
  obtain ⟨u, v, huv⟩ := h
  exact ⟨a.data ++ u, v, by rw [String.data_append, ← huv]; simp⟩

theorem containsStr_append_of_left (s b sub : String) (h : containsStr s sub) :
    containsStr (s ++ b) sub := by
  obtain ⟨u, v, huv⟩ := h
  exact ⟨u, v ++ b.data, by rw [String.data_append, ← huv]; simp⟩

theorem containsStr_self (s : String) : containsStr s s :=
  ⟨[], [], by simp⟩

theorem containsStr_ne_empty (s sub : String) (h : containsStr s sub)
    (hsub : sub ≠ "") : s ≠ "" := by
  intro hs
  subst hs
  obtain ⟨u, v, huv⟩ := h
  have hd : u ++ sub.data ++ v = ([] : List Char) := huv
  have : sub.data = [] := by
    rcases List.append_eq_nil.mp hd with ⟨h1, -⟩
    exact (List.append_eq_nil.mp h1).2
  exact hsub (String.ext this)

theorem ruleReport_contains_tag (city : String) (temp humidity wind : ℚ) :
    containsStr (ruleReport city temp humidity wind) "Rule-based" := by
  unfold ruleReport
  exact containsStr_append_of_right _ _ _ (by decide)

theorem analyze_eq_rule_of_error (w : WeatherData) (city : String)
    (api_key : Option String) (complete : String → Except String String) (e : String)
    (hfail : attemptRemote api_key complete
        (weather_prompt city w.temperature w.humidity w.wind_speed) = Except.error e) :
    analyze_weather_with_llm w city api_key complete
      = ruleReport city w.temperature w.humidity w.wind_speed := by
  unfold analyze_weather_with_llm
  rw [hfail]

theorem windAdjust_comfort (c : Classification) (wind : ℚ) :
    (windAdjust c wind).comfort = c.comfort := by
  unfold windAdjust
  split_ifs <;> rfl

theorem windAdjust_warning_contains (c : Classification) (wind : ℚ) (sub : String)
    (h : containsStr c.warning sub) : containsStr (windAdjust c wind).warning sub := by
  unfold windAdjust
  split_ifs
  · exact containsStr_append_of_left _ _ _ h
  · exact h

theorem tempBucket_freezing (t : ℚ) (h : t < 0) :
    tempBucket t =
      { temp_desc := "freezing", comfort := 2
        activities := "indoor activities, ice skating"
        clothing := "heavy winter coat, gloves, warm boots"
        warning := "⚠️ Risk of frostbite - limit outdoor exposure" } := by
  unfold tempBucket
  rw [if_pos h]

theorem tempBucket_cold (t : ℚ) (h1 : 0 ≤ t) (h2 : t < 10) :
    tempBucket t =
      { temp_desc := "cold", comfort := 4
        activities := "brisk walks, winter sports"
        clothing := "warm jacket, layers, closed shoes"
        warning := "Bundle up to stay warm" } := by
  unfold tempBucket
  rw [if_neg (not_lt.mpr h1), if_pos h2]

theorem tempBucket_pleasant (t : ℚ) (h1 : 10 ≤ t) (h2 : t < 25) :
    tempBucket t =
      { temp_desc := "pleasant", comfort := 8
        activities := "hiking, cycling, outdoor dining"
        clothing := "light jacket or sweater"
        warning := "Perfect weather for outdoor activities!" } := by
  unfold tempBucket
  rw [if_neg (not_lt.mpr (by linarith : (0:ℚ) ≤ t)), if_neg (not_lt.mpr h1), if_pos h2]

theorem tempBucket_hot (t : ℚ) (h1 : 25 ≤ t) (h2 : t < 35) :
    tempBucket t =
      { temp_desc := "hot", comfort := 6
        activities := "swimming, early morning walks"
        clothing := "light clothing, sun hat, sunscreen"
        warning := "Stay hydrated and seek shade" } := by
  unfold tempBucket
  rw [if_neg (not_lt.mpr (by linarith : (0:ℚ) ≤ t)),
    if_neg (not_lt.mpr (by linarith : (10:ℚ) ≤ t)), if_neg (not_lt.mpr h1), if_pos h2]

theorem tempBucket_exhot (t : ℚ) (h1 : 35 ≤ t) :
    tempBucket t =
      { temp_desc := "extremely hot", comfort := 3
        activities := "indoor activities, swimming"
        clothing := "minimal light clothing, sun protection"
        warning := "⚠️ Heat warning - avoid prolonged sun exposure" } := by
  unfold tempBucket
  rw [if_neg (not_lt.mpr (by linarith : (0:ℚ) ≤ t)),
    if_neg (not_lt.mpr (by linarith : (10:ℚ) ≤ t)),
    if_neg (not_lt.mpr (by linarith : (25:ℚ) ≤ t)), if_neg (not_lt.mpr h1)]

/-- C2: the rule engine buckets temperature with exclusive upper bounds
into exactly five ranges: t < 0 ↦ (freezing, 2), 0 ≤ t < 10 ↦ (cold, 4),
10 ≤ t < 25 ↦ (pleasant, 8), 25 ≤ t < 35 ↦ (hot, 6), t ≥ 35 ↦
(extremely hot, 3); in particular -0.1 ↦ (freezing, 2), 24.9 ↦
(pleasant, 8) and 25.0 ↦ (hot, 6). -/
theorem tempBucket_ranges (t : ℚ) :
    (t < 0 → (tempBucket t).temp_desc = "freezing" ∧ (tempBucket t).comfort = 2) ∧
    (0 ≤ t → t < 10 → (tempBucket t).temp_desc = "cold" ∧ (tempBucket t).comfort = 4) ∧
    (10 ≤ t → t < 25 → (tempBucket t).temp_desc = "pleasant" ∧ (tempBucket t).comfort = 8) ∧
    (25 ≤ t → t < 35 → (tempBucket t).temp_desc = "hot" ∧ (tempBucket t).comfort = 6) ∧
    (35 ≤ t → (tempBucket t).temp_desc = "extremely hot" ∧ (tempBucket t).comfort = 3) ∧
    ((tempBucket (-1/10)).temp_desc = "freezing" ∧ (tempBucket (-1/10)).comfort = 2) ∧
    ((tempBucket (249/10)).temp_desc = "pleasant" ∧ (tempBucket (249/10)).comfort = 8) ∧
    ((tempBucket 25).temp_desc = "hot" ∧ (tempBucket 25).comfort = 6) := by
  refine ⟨fun h => ?_, fun h1 h2 => ?_, fun h1 h2 => ?_, fun h1 h2 => ?_, fun h1 => ?_,
    ?_, ?_, ?_⟩
  · rw [tempBucket_freezing t h]; exact ⟨rfl, rfl⟩
  · rw [tempBucket_cold t h1 h2]; exact ⟨rfl, rfl⟩
  · rw [tempBucket_pleasant t h1 h2]; exact ⟨rfl, rfl⟩
  · rw [tempBucket_hot t h1 h2]; exact ⟨rfl, rfl⟩
  · rw [tempBucket_exhot t h1]; exact ⟨rfl, rfl⟩
  · rw [tempBucket_freezing (-1/10) (by norm_num)]; exact ⟨rfl, rfl⟩
  · rw [tempBucket_pleasant (249/10) (by norm_num) (by norm_num)]; exact ⟨rfl, rfl⟩
  · rw [tempBucket_hot 25 (by norm_num) (by norm_num)]; exact ⟨rfl, rfl⟩

theorem tempBucket_ranges_witness :
    ((tempBucket (-1)).temp_desc = "freezing" ∧ (tempBucket (-1)).comfort = 2) ∧
    ((tempBucket 5).temp_desc = "cold" ∧ (tempBucket 5).comfort = 4) ∧
    ((tempBucket 15).temp_desc = "pleasant" ∧ (tempBucket 15).comfort = 8) ∧
    ((tempBucket 30).temp_desc = "hot" ∧ (tempBucket 30).comfort = 6) ∧
    ((tempBucket 40).temp_desc = "extremely hot" ∧ (tempBucket 40).comfort = 3) :=
  ⟨(tempBucket_ranges (-1)).1 (by norm_num),
   (tempBucket_ranges 5).2.1 (by norm_num) (by norm_num),
   (tempBucket_ranges 15).2.2.1 (by norm_num) (by norm_num),
   (tempBucket_ranges 30).2.2.2.1 (by norm_num) (by norm_num),
   (tempBucket_ranges 40).2.2.2.2.1 (by norm_num)⟩

/-- C3: counterexample — at temperature 15, humidity 85, wind 10 the
humidity branch fires (85 > 80), yet the fallback warning does not
contain the text "high humidity feels warmer" the claim quotes: the code
appends the sentence "High humidity will make it feel warmer." instead. -/
theorem humidity_note_text_counterexample :
    (85 : ℚ) > 80 ∧
      ¬ containsStr (ruleClassify 15 85 10).warning "high humidity feels warmer" := by
  constructor
  · norm_num
  · have h : (ruleClassify 15 85 10).warning =
        "Perfect weather for outdoor activities!" ++
          " High humidity will make it feel warmer." := by
      unfold ruleClassify tempBucket humidityAdjust windAdjust
      norm_num
    rw [h]
    decide

/-- C3 (amended): for every reading, humidity > 80 decrements the
comfort score by 1 and appends the note "High humidity will make it feel
warmer." to the warning; humidity < 30 appends "Low humidity may cause
dry skin." with no comfort change; the two branches are mutually
exclusive; and humidity 85 with temperature 15 yields comfort 7. -/
theorem humidity_adjustment (t h w : ℚ) :
    (h > 80 → (ruleClassify t h w).comfort = (tempBucket t).comfort - 1 ∧
      containsStr (ruleClassify t h w).warning "High humidity will make it feel warmer.") ∧
    (h < 30 → (ruleClassify t h w).comfort = (tempBucket t).comfort ∧
      containsStr (ruleClassify t h w).warning "Low humidity may cause dry skin.") ∧
    ¬ (h > 80 ∧ h < 30) ∧
    (ruleClassify 15 85 10).comfort = 7 := by
  refine ⟨fun hh => ?_, fun hh => ?_, fun hboth => by linarith [hboth.1, hboth.2], ?_⟩
  · have hha : humidityAdjust (tempBucket t) h =
        { tempBucket t with comfort := (tempBucket t).comfort - 1
                            warning := (tempBucket t).warning
                              ++ " High humidity will make it feel warmer." } := by
      unfold humidityAdjust
      rw [if_pos hh]
    unfold ruleClassify
    rw [hha]
    refine ⟨by rw [windAdjust_comfort], ?_⟩
    exact windAdjust_warning_contains _ _ _ (containsStr_append_of_right _ _ _ (by decide))
  · have hha : humidityAdjust (tempBucket t) h =
        { tempBucket t with warning := (tempBucket t).warning
                              ++ " Low humidity may cause dry skin." } := by
      unfold humidityAdjust
      rw [if_neg (by linarith : ¬ h > 80), if_pos hh]
    unfold ruleClassify
    rw [hha]
    refine ⟨by rw [windAdjust_comfort], ?_⟩
    exact windAdjust_warning_contains _ _ _ (containsStr_append_of_right _ _ _ (by decide))
  · unfold ruleClassify tempBucket humidityAdjust windAdjust
    norm_num

theorem humidity_adjustment_witness :
    ((ruleClassify 15 85 10).comfort = (tempBucket 15).comfort - 1 ∧
      containsStr (ruleClassify 15 85 10).warning "High humidity will make it feel warmer.") ∧
    ((ruleClassify 15 20 10).comfort = (tempBucket 15).comfort ∧
      containsStr (ruleClassify 15 20 10).warning "Low humidity may cause dry skin.") :=
  ⟨(humidity_adjustment 15 85 10).1 (by norm_num),
   (humidity_adjustment 15 20 10).2.1 (by norm_num)⟩

/-- C6: for every reading with wind_speed > 20 the fallback warning
contains "secure loose items", whatever the temperature bucket and the
humidity adjustment did. -/
theorem wind_warning (t h w : ℚ) (hw : w > 20) :
    containsStr (ruleClassify t h w).warning "secure loose items" := by
  unfold ruleClassify windAdjust
  rw [if_pos hw]
  exact containsStr_append_of_right _ _ _ (by decide)

theorem wind_warning_witness :
    containsStr (ruleClassify 15 50 25).warning "secure loose items" :=
  wind_warning 15 50 25 (by norm_num)

/-- C8: an absent API credential takes the same path as any other remote
failure: for every reading and city, `analyze_weather_with_llm` with no
resolvable key returns exactly the rule-based report, which is also what
it returns when a key is present but the collaborator fails. -/
theorem missing_credential_is_failure (w : WeatherData) (city : String)
    (complete : String → Except String String) (k e : String) :
    analyze_weather_with_llm w city none complete
      = ruleReport city w.temperature w.humidity w.wind_speed ∧
    analyze_weather_with_llm w city none complete
      = analyze_weather_with_llm w city (some k) (fun _ => Except.error e) := by
  have hmiss : analyze_weather_with_llm w city none complete
      = ruleReport city w.temperature w.humidity w.wind_speed :=
    analyze_eq_rule_of_error w city none complete "OpenAI API key not found" rfl
  have hsome : attemptRemote (some k) (fun _ => Except.error e)
      (weather_prompt city w.temperature w.humidity w.wind_speed)
      = Except.error (if k = "" then "OpenAI API key not found" else e) := by
    show (if k = "" then Except.error "OpenAI API key not found" else Except.error e)
      = Except.error (if k = "" then "OpenAI API key not found" else e)
    split_ifs <;> rfl
  exact ⟨hmiss, hmiss.trans
    (analyze_eq_rule_of_error w city (some k) (fun _ => Except.error e) _ hsome).symm⟩

/-- C9: for every reading, the comfort score of the rule-based fallback,
after the humidity adjustment, lies in [1, 8] (so it never leaves the
documented 1-10 range). -/
theorem comfort_in_range (t h w : ℚ) :
    1 ≤ (ruleClassify t h w).comfort ∧ (ruleClassify t h w).comfort ≤ 8 := by
  unfold ruleClassify tempBucket humidityAdjust windAdjust
  split_ifs <;> norm_num

/-- C1: for every reading and non-empty city, if the remote-model call
fails for any reason, `analyze_weather_with_llm` still returns a
non-empty report containing the tag "Rule-based"; the function is total,
so no error reaches its caller. -/
theorem analyze_fallback_guarantee (w : WeatherData) (city : String)
    (api_key : Option String) (complete : String → Except String String) (e : String)
    (hcity : city ≠ "")
    (hfail : attemptRemote api_key complete
        (weather_prompt city w.temperature w.humidity w.wind_speed) = Except.error e) :
    analyze_weather_with_llm w city api_key complete ≠ "" ∧
      containsStr (analyze_weather_with_llm w city api_key complete) "Rule-based" := by
  rw [analyze_eq_rule_of_error w city api_key complete e hfail]
  exact ⟨containsStr_ne_empty _ _ (ruleReport_contains_tag city _ _ _) (by decide),
    ruleReport_contains_tag city _ _ _⟩

theorem analyze_fallback_guarantee_witness :
    analyze_weather_with_llm ⟨15, 50, 10⟩ "Berlin" none (fun _ => Except.error "boom") ≠ "" ∧
      containsStr (analyze_weather_with_llm ⟨15, 50, 10⟩ "Berlin" none
        (fun _ => Except.error "boom")) "Rule-based" :=
  analyze_fallback_guarantee ⟨15, 50, 10⟩ "Berlin" none (fun _ => Except.error "boom")
    "OpenAI API key not found" (by decide) rfl

theorem data_cons_of_ne_empty (city : String) (hcity : city ≠ "") :
    ∃ c0 rest, city.data = c0 :: rest := by
  cases hcd : city.data with
  | nil => exact absurd (String.ext (hcd.trans rfl)) hcity
  | cons a l => exact ⟨a, l, rfl⟩

/-- C4: for every non-empty city and every draw r in [-5, 5], the
synthesized reading has humidity in [40, 79], wind_speed in [5, 19], and
temperature within 5 of the deterministic base. -/
theorem synthesize_bounds (city : String) (r : ℚ)
    (hcity : city ≠ "") (hr1 : -5 ≤ r) (hr2 : r ≤ 5) :
    ∃ w, get_weather city r = Except.ok w ∧
      40 ≤ w.humidity ∧ w.humidity ≤ 79 ∧
      5 ≤ w.wind_speed ∧ w.wind_speed ≤ 19 ∧
      (temp_base city : ℚ) - 5 ≤ w.temperature ∧
      w.temperature ≤ (temp_base city : ℚ) + 5 := by
  obtain ⟨c0, rest, hd⟩ := data_cons_of_ne_empty city hcity
  have hg : get_weather city r = Except.ok
      { temperature := (temp_base city : ℚ) + r
        humidity := ((40 + c0.toNat % 40 : ℕ) : ℚ)
        wind_speed := ((5 + city.length % 15 : ℕ) : ℚ) } := by
    unfold get_weather
    rw [hd]
  have hx : c0.toNat % 40 < 40 := Nat.mod_lt _ (by norm_num)
  have hy : city.length % 15 < 15 := Nat.mod_lt _ (by norm_num)
  refine ⟨_, hg, ?_, ?_, ?_, ?_, ?_, ?_⟩
  · show (40 : ℚ) ≤ ((40 + c0.toNat % 40 : ℕ) : ℚ)
    exact_mod_cast Nat.le_add_right 40 _
  · show ((40 + c0.toNat % 40 : ℕ) : ℚ) ≤ 79
    exact_mod_cast (by omega : (40 + c0.toNat % 40 : ℕ) ≤ 79)
  · show (5 : ℚ) ≤ ((5 + city.length % 15 : ℕ) : ℚ)
    exact_mod_cast Nat.le_add_right 5 _
  · show ((5 + city.length % 15 : ℕ) : ℚ) ≤ 19
    exact_mod_cast (by omega : (5 + city.length % 15 : ℕ) ≤ 19)
  · show (temp_base city : ℚ) - 5 ≤ (temp_base city : ℚ) + r
    linarith
  · show (temp_base city : ℚ) + r ≤ (temp_base city : ℚ) + 5
    linarith

theorem synthesize_bounds_witness :
    ∃ w, get_weather "Berlin" 0 = Except.ok w ∧
      40 ≤ w.humidity ∧ w.humidity ≤ 79 ∧
      5 ≤ w.wind_speed ∧ w.wind_speed ≤ 19 ∧
      (temp_base "Berlin" : ℚ) - 5 ≤ w.temperature ∧
      w.temperature ≤ (temp_base "Berlin" : ℚ) + 5 :=
  synthesize_bounds "Berlin" 0 (by decide) (by norm_num) (by norm_num)

/-- C5: for every non-empty city and draw, `get_weather` computes its
reading by exactly the algorithm the spec states (`synthesize_spec`,
written from the spec text): temperature base is the sum of character
codes of the lowercased city mod 30 plus the draw, humidity is 40 plus
(code of the first character mod 40), wind speed is 5 plus (length
mod 15). -/
theorem synthesize_matches_spec (city : String) (r : ℚ) (hcity : city ≠ "") :
    get_weather city r = synthesize_spec city r := by
  obtain ⟨c0, rest, hd⟩ := data_cons_of_ne_empty city hcity
  unfold get_weather synthesize_spec temp_base
  rw [hd, if_neg hcity]
  rfl

theorem synthesize_matches_spec_witness :
    get_weather "Berlin" 0 = synthesize_spec "Berlin" 0 :=
  synthesize_matches_spec "Berlin" 0 (by decide)

/-- C7: on the empty city string the synthesis step fails with
`InvalidInputError`, and the pipeline propagates that error to the
caller: there is no fallback for bad input. -/
theorem empty_city_error (r : ℚ) (api_key : Option String)
    (complete : String → Except String String) :
    get_weather "" r = Except.error InvalidInputError.emptyCity ∧
      weather_agent_pipeline "" r api_key complete
        = Except.error InvalidInputError.emptyCity :=
  ⟨rfl, rfl⟩

theorem humidityAdjust_id (c : Classification) (h : ℚ)
    (h80 : ¬ h > 80) (h30 : ¬ h < 30) : humidityAdjust c h = c := by
  unfold humidityAdjust
  rw [if_neg h80, if_neg h30]

theorem windAdjust_bucket_no_humidity_note (t wind : ℚ) :
    ¬ containsStr (windAdjust (tempBucket t) wind).warning "humidity" := by
  unfold windAdjust tempBucket
  split_ifs <;> decide

/-- C10: a reading produced by `get_weather` can never trigger either
humidity branch of the fallback: its humidity lies in [40, 79], so
neither humidity > 80 nor humidity < 30 holds, the humidity adjustment
is the identity, the reported comfort equals the temperature bucket's
base comfort, and the warning carries no humidity note. -/
theorem synthesized_reading_skips_humidity (city : String) (r : ℚ) (hcity : city ≠ "") :
    ∃ w, get_weather city r = Except.ok w ∧
      ¬ w.humidity > 80 ∧ ¬ w.humidity < 30 ∧
      humidityAdjust (tempBucket w.temperature) w.humidity = tempBucket w.temperature ∧
      ruleClassify w.temperature w.humidity w.wind_speed
        = windAdjust (tempBucket w.temperature) w.wind_speed ∧
      (ruleClassify w.temperature w.humidity w.wind_speed).comfort
        = (tempBucket w.temperature).comfort ∧
      ¬ containsStr (ruleClassify w.temperature w.humidity w.wind_speed).warning
          "humidity" := by
  obtain ⟨c0, rest, hd⟩ := data_cons_of_ne_empty city hcity
  have hg : get_weather city r = Except.ok
      { temperature := (temp_base city : ℚ) + r
        humidity := ((40 + c0.toNat % 40 : ℕ) : ℚ)
        wind_speed := ((5 + city.length % 15 : ℕ) : ℚ) } := by
    unfold get_weather
    rw [hd]
  have hx : c0.toNat % 40 < 40 := Nat.mod_lt _ (by norm_num)
  have h80 : ¬ ((40 + c0.toNat % 40 : ℕ) : ℚ) > 80 := by
    exact_mod_cast (by omega : ¬ (40 + c0.toNat % 40 : ℕ) > 80)
  have h30 : ¬ ((40 + c0.toNat % 40 : ℕ) : ℚ) < 30 := by
    exact_mod_cast (by omega : ¬ (40 + c0.toNat % 40 : ℕ) < 30)
  have hub := humidityAdjust_id (tempBucket ((temp_base city : ℚ) + r))
    ((40 + c0.toNat % 40 : ℕ) : ℚ) h80 h30
  refine ⟨_, hg, h80, h30, hub, ?_, ?_, ?_⟩
  · show ruleClassify ((temp_base city : ℚ) + r) ((40 + c0.toNat % 40 : ℕ) : ℚ)
        ((5 + city.length % 15 : ℕ) : ℚ)
      = windAdjust (tempBucket ((temp_base city : ℚ) + r)) ((5 + city.length % 15 : ℕ) : ℚ)
    unfold ruleClassify
    rw [hub]
  · show (ruleClassify ((temp_base city : ℚ) + r) ((40 + c0.toNat % 40 : ℕ) : ℚ)
        ((5 + city.length % 15 : ℕ) : ℚ)).comfort
      = (tempBucket ((temp_base city : ℚ) + r)).comfort
    unfold ruleClassify
    rw [hub, windAdjust_comfort]
  · show ¬ containsStr (ruleClassify ((temp_base city : ℚ) + r)
        ((40 + c0.toNat % 40 : ℕ) : ℚ) ((5 + city.length % 15 : ℕ) : ℚ)).warning "humidity"
    unfold ruleClassify
    rw [hub]
    exact windAdjust_bucket_no_humidity_note _ _

theorem synthesized_reading_skips_humidity_witness :
    ∃ w, get_weather "Berlin" 0 = Except.ok w ∧
      ¬ w.humidity > 80 ∧ ¬ w.humidity < 30 ∧
      humidityAdjust (tempBucket w.temperature) w.humidity = tempBucket w.temperature ∧
      ruleClassify w.temperature w.humidity w.wind_speed
        = windAdjust (tempBucket w.temperature) w.wind_speed ∧
      (ruleClassify w.temperature w.humidity w.wind_speed).comfort
        = (tempBucket w.temperature).comfort ∧
      ¬ containsStr (ruleClassify w.temperature w.humidity w.wind_speed).warning
          "humidity" :=
  synthesized_reading_skips_humidity "Berlin" 0 (by decide)
